import Mathlib

/-!
Verification development for the jobworker repository.

The definitions below are a shallow embedding of the supervised-job
subsystem: the joblib package (internal/cgroups/cgroups.go, package
joblib) and the manager package (internal/manager/manager.go).

Modelling conventions:
  * Machine integers are modelled as Int (exit codes) and Nat.
  * The environment of a call (whether the kernel operations succeed,
    what the child wait returns) is an explicit Env record; each Go
    operation becomes a pure function from a Job state and an Env to a
    new Job state, a result, and a list of observable effects.
  * Logging calls (log.Printf, snapshot logging, log dumping) have no
    modelled effect and are elided.
  * The real cgroup-manager implementation (Create, Delete, Snapshot)
    is not part of the source tree; only a placeholder declaration and
    its callers are. Its effects are modelled from the spec, section
    4.1, as documented on the relevant branches below.
-/

/-- Job status, from joblib (cgroups.go lines 41-54): Unknown, Started,
Running, Exited, Stopped, Failed. -/
inductive Status where
  | unknown
  | started
  | running
  | exited
  | stopped
  | failed
deriving DecidableEq, Repr

/-- Exit-code sentinels, from cgroups.go lines 73-78. -/
def exitCodeUnknown : Int := -10
def exitCodeFailedToStart : Int := -11
def exitCodeFailedCgroup : Int := -12
def exitCodeKilledBySignal : Int := -13

/-- The result of the Sys() cast to syscall.WaitStatus on a process
state (cgroups.go line 348): whether the child was terminated by a
signal. -/
structure WaitStatus where
  signaled : Bool
deriving DecidableEq, Repr

/-- Model of os.ProcessState as observed by joblib: the optional
wait-status (the Sys() cast can fail) and the ExitCode() value. -/
structure ProcessState where
  sys : Option WaitStatus
  exitCode : Int
deriving DecidableEq, Repr

/-- Model of the error returned by cmd.Wait(): either an
exec.ExitError carrying an optional process state, or some other
error (cgroups.go lines 342-344). -/
inductive WaitErr where
  | exitError (ps : Option ProcessState)
  | other
deriving DecidableEq, Repr

/-- Model of the outcome of cmd.Wait() in doWait (cgroups.go line
399): either no error together with cmd.ProcessState, or an error. -/
inductive WaitResult where
  | ok (ps : Option ProcessState)
  | err (e : WaitErr)
deriving DecidableEq, Repr

/-- Observable effects of the job operations: the kernel-facing steps
of Start and Stop. Logging is elided. -/
inductive Effect where
  | cgroupCreate
  | fsPrepare
  | spawn
  | killGroup
  | killProc
  | cgroupDelete
  | doneClose
  | jobConstruct
deriving DecidableEq, Repr

/-- Errors returned by Job.Start (cgroups.go lines 147-220): the
invalid-state guard failure, cgroup-creation failure, filesystem
preparation failure, and spawn failure. -/
inductive StartErr where
  | invalidState
  | createFailed
  | prepareFailed
  | spawnFailed
deriving DecidableEq, Repr

/-- Errors accumulated by Job.Stop (cgroups.go lines 231-264); the Go
code joins them with errors.Join, so an empty list models a nil
(success) return. -/
inductive StopErr where
  | killPg
  | killProc
  | cleanupCgroup
deriving DecidableEq, Repr

/-- Environment of one operation: which fallible steps succeed and
what the child wait returns. Modelled from the spec where the cgroup
manager implementation is missing from the source tree: per spec 4.1,
delete always results in the removal of the directory (kill, drain,
rmdir); the spec does not constrain when delete reports an error, so
the reported error is environment-chosen. -/
structure Env where
  /-- cgManager.Create succeeds (cgroups.go line 154). -/
  createOk : Bool
  /-- Modelled from the spec (4.1 step 7): when Create fails after
  making the directory, its best-effort removal may leave the
  directory behind. -/
  createLeavesDir : Bool
  /-- prepareJobFilesystem succeeds (cgroups.go line 162). -/
  prepareOk : Bool
  /-- cmd.Start succeeds (cgroups.go line 180). -/
  spawnOk : Bool
  /-- syscall.Getpgid succeeds in Stop (cgroups.go line 235). -/
  pgidOk : Bool
  /-- syscall.Kill of the process group returns an error (line 237). -/
  killPgErr : Bool
  /-- cmd.Process.Kill returns an error (line 242). -/
  killProcErr : Bool
  /-- cgManager.Delete inside Stop returns an error (line 251). -/
  deleteErrStop : Bool
  /-- Outcome of cmd.Wait() observed by doWait (line 399). -/
  waitResult : WaitResult
deriving DecidableEq, Repr

/-- The state of one Job (struct Job, cgroups.go lines 89-107)
together with the filesystem facts the claims mention. doneCh is
modelled by doneClosed plus a close counter; sync.Once by
waitOnceDone; pointer fields by presence flags. -/
structure Job where
  status : Status
  exitCode : Int
  /-- The stopped atomic.Bool. -/
  stopped : Bool
  /-- Whether waitOnce has been consumed. -/
  waitOnceDone : Bool
  /-- Whether doneCh has been closed. -/
  doneClosed : Bool
  /-- How many times close(doneCh) has executed; a second close would
  be a runtime fault in Go. -/
  doneCloseCount : Nat
  /-- cgManager field is non-nil (set at cgroups.go line 152). -/
  cgManagerSet : Bool
  /-- cmd.Process is non-nil (the child was spawned). -/
  hasProcess : Bool
  /-- The directory /sys/fs/cgroup/jobs/id exists (world state). -/
  cgroupDirExists : Bool
  /-- The stdout/stderr sinks are open. -/
  logFilesOpen : Bool
deriving DecidableEq, Repr

/-- The state NewJob returns (cgroups.go lines 119-133): status
Unknown, exit code -10, nothing created, nothing spawned. -/
def initialJob : Job :=
  { status := .unknown
    exitCode := exitCodeUnknown
    stopped := false
    waitOnceDone := false
    doneClosed := false
    doneCloseCount := 0
    cgManagerSet := false
    hasProcess := false
    cgroupDirExists := false
    logFilesOpen := false }

/-- NewJob (cgroups.go lines 111-134): rejects an empty id or
command, otherwise returns the initial state. The Go function performs
no filesystem operation (it only computes paths), hence no effects. -/
def NewJob (id command : String) : Except String Job :=
  if id = "" then .error "job id required"
  else if command = "" then .error "Command required"
  else .ok initialJob

/-- getExitCodeFromError (cgroups.go lines 341-358). -/
def getExitCodeFromError (e : WaitErr) : Int :=
  match e with
  | .other => exitCodeUnknown
  | .exitError none => exitCodeUnknown
  | .exitError (some ps) =>
    match ps.sys with
    | some ws => if ws.signaled then exitCodeKilledBySignal else ps.exitCode
    | none => ps.exitCode

/-- The exit-code reconciliation of doWait (cgroups.go lines 402-412):
an error goes through getExitCodeFromError; a nil error uses
cmd.ProcessState when available and -10 otherwise. -/
def exitCodeOfWait (wr : WaitResult) : Int :=
  match wr with
  | .err e => getExitCodeFromError e
  | .ok (some ps) => ps.exitCode
  | .ok none => exitCodeUnknown

/-- closeLogFiles (cgroups.go lines 360-378): closes whichever sinks
are open; errors are logged and joined but every caller only logs the
result. -/
def closeLogFiles (j : Job) : Job :=
  { j with logFilesOpen := false }

/-- sync.Once.Do (used at cgroups.go lines 261, 280, 442): the body
runs only on the first call. -/
def runOnce (body : Job → Job × List Effect) (j : Job) : Job × List Effect :=
  if j.waitOnceDone then (j, [])
  else body { j with waitOnceDone := true }

/-- The body of doWait (cgroups.go lines 380-439), run under
waitOnce. If the status is not Running this is the start-failure or
stopped-before-running path: close sinks, delete the cgroup if the
manager was created, close doneCh. Otherwise reap the child, reconcile
the exit code and the status against the stopped flag, close sinks,
delete the cgroup, close doneCh. The deferred close(doneCh) runs
last in both branches. -/
def doWaitBody (env : Env) (j : Job) : Job × List Effect :=
  if j.status ≠ .running then
    let j := closeLogFiles j
    let (j, eff) :=
      if j.cgManagerSet then
        ({ j with cgroupDirExists := false }, [Effect.cgroupDelete])
      else (j, [])
    ({ j with doneClosed := true, doneCloseCount := j.doneCloseCount + 1 },
      eff ++ [Effect.doneClose])
  else
    let j := { j with exitCode := exitCodeOfWait env.waitResult }
    let j :=
      if j.stopped then
        if j.status ≠ .stopped then { j with status := .stopped } else j
      else
        if j.status ≠ .failed then { j with status := .exited } else j
    let j := closeLogFiles j
    let (j, eff) :=
      if j.cgManagerSet then
        ({ j with cgroupDirExists := false }, [Effect.cgroupDelete])
      else (j, [])
    ({ j with doneClosed := true, doneCloseCount := j.doneCloseCount + 1 },
      eff ++ [Effect.doneClose])

/-- waitForExit (cgroups.go lines 441-443): run doWait under the
waitOnce latch. -/
def Job.waitForExit (env : Env) (j : Job) : Job × List Effect :=
  runOnce (doWaitBody env) j

/-- The closure failStart passes to waitOnce.Do (cgroups.go lines
280-294): close the sinks, best-effort delete the cgroup when the
manager exists, and close doneCh (deferred, so it runs last). -/
def failStartBody (j : Job) : Job × List Effect :=
  let j := closeLogFiles j
  let (j, eff) :=
    if j.cgManagerSet then
      ({ j with cgroupDirExists := false }, [Effect.cgroupDelete])
    else (j, [])
  ({ j with doneClosed := true, doneCloseCount := j.doneCloseCount + 1 },
    eff ++ [Effect.doneClose])

/-- failStart (cgroups.go lines 272-297): force status and exit code,
then run the cleanup closure under the waitOnce latch. Returns the
error to the caller; we model the error at the call sites of failStart
inside Start. -/
def Job.failStart (code : Int) (j : Job) : Job × List Effect :=
  let j := { j with status := .failed, exitCode := code }
  runOnce failStartBody j

/-- Job.Start (cgroups.go lines 147-220). The guard is the CAS
Unknown to Started; then the cgroup is created (its directory appears
on success; on failure the spec-modelled Create may leave the
directory, and Start deletes it inline before failStart), the job
filesystem is prepared, and the child is spawned with the cgroup
handle. The Started to Running CAS always succeeds in a sequential
run; spawning the waiter is modelled by a separate Job.waitForExit
application. -/
def Job.start (env : Env) (j : Job) : Job × Option StartErr × List Effect :=
  if j.status ≠ .unknown then (j, some .invalidState, [])
  else
    let j := { j with status := .started, cgManagerSet := true }
    if ¬ env.createOk then
      let j := { j with cgroupDirExists := env.createLeavesDir }
      let j := { j with cgroupDirExists := false }
      let (j, eff) := Job.failStart exitCodeFailedCgroup j
      (j, some .createFailed,
        [Effect.cgroupCreate, Effect.cgroupDelete] ++ eff)
    else
      let j := { j with cgroupDirExists := true }
      if ¬ env.prepareOk then
        let (j, eff) := Job.failStart exitCodeFailedToStart j
        (j, some .prepareFailed, [Effect.cgroupCreate, Effect.fsPrepare] ++ eff)
      else
        let j := { j with logFilesOpen := true }
        if ¬ env.spawnOk then
          let j := { j with cgroupDirExists := false }
          let (j, eff) := Job.failStart exitCodeFailedToStart j
          (j, some .spawnFailed,
            [Effect.cgroupCreate, Effect.fsPrepare, Effect.spawn,
              Effect.cgroupDelete] ++ eff)
        else
          let j := { j with hasProcess := true }
          let j := if j.status = .started then { j with status := .running } else j
          (j, none, [Effect.cgroupCreate, Effect.fsPrepare, Effect.spawn])

/-- Job.Stop (cgroups.go lines 226-268). The stopped CAS makes a
second call return nil immediately. Otherwise: kill the process group
(falling back to a direct kill when the pgid lookup fails) when a
process exists, delete the cgroup when the manager exists, set the
status to Stopped, run doWait under the waitOnce latch, and return the
join of the accumulated errors (empty list = nil). -/
def Job.stop (env : Env) (j : Job) : Job × List StopErr × List Effect :=
  if j.stopped then (j, [], [])
  else
    let j := { j with stopped := true }
    let (killEffs, killErrs) :=
      if j.hasProcess then
        if env.pgidOk then
          ([Effect.killGroup], if env.killPgErr then [StopErr.killPg] else [])
        else
          ([Effect.killProc], if env.killProcErr then [StopErr.killProc] else [])
      else ([], [])
    let (j, delEffs, delErrs) :=
      if j.cgManagerSet then
        ({ j with cgroupDirExists := false }, [Effect.cgroupDelete],
          if env.deleteErrStop then [StopErr.cleanupCgroup] else [])
      else (j, [], [])
    let j := { j with status := .stopped }
    let (j, onceEffs) := runOnce (doWaitBody env) j
    (j, killErrs ++ delErrs, killEffs ++ delEffs ++ onceEffs)

/-- An environment in which every kernel operation succeeds and the
child exits naturally with code 0. -/
def envOk : Env :=
  { createOk := true
    createLeavesDir := false
    prepareOk := true
    spawnOk := true
    pgidOk := true
    killPgErr := false
    killProcErr := false
    deleteErrStop := false
    waitResult := .ok (some { sys := some { signaled := false }, exitCode := 0 }) }

/-! ## Manager (internal/manager/manager.go) -/

/-- The limits message of the StartJob request (proto ResourceLimits);
absent fields read as the empty string through the generated getters. -/
structure ResourceLimits where
  cpu : String
  memoryMax : String
  ioClass : String
deriving DecidableEq, Repr

/-- RPC error codes used by the manager (google.golang.org/grpc/codes). -/
inductive GrpcErr where
  | invalidArgument (msg : String)
  | notFound (msg : String)
  | internal (msg : String)
deriving DecidableEq, Repr

/-- translateLimits (manager.go lines 108-117), as written in the
source: a nil request maps to nil, and every other request also maps
to nil (the body is an acknowledged placeholder that discards its
input). -/
def translateLimits (l : Option ResourceLimits) : List (String × String) :=
  match l with
  | none => []
  | some _ => []

/-- Decimal reading of a nonempty all-digit character list; anything
else reads as none. -/
def natOfDigits (cs : List Char) : Option Nat :=
  if cs.isEmpty then none
  else
    cs.foldl
      (fun acc c =>
        match acc with
        | none => none
        | some n => if c.isDigit then some (n * 10 + (c.toNat - 48)) else none)
      (some 0)

/-- Modelled from the spec: section 4.2 row for the cpu field, which
is missing from the source (translateLimits is a placeholder).
"max" maps to cpu.max = "max 100000"; a number followed by m maps to
cpu.max = "n*100 100000"; an integer "n" maps to
cpu.max = "n*100000 100000". An absent or unrecognized field emits
nothing. -/
def specCpuPairs (cpu : String) : List (String × String) :=
  if cpu.data.isEmpty then []
  else if cpu = "max" then [("cpu.max", "max 100000")]
  else if cpu.data.getLast? = some 'm' then
    match natOfDigits cpu.data.dropLast with
    | some n => [("cpu.max", toString (n * 100) ++ " 100000")]
    | none => []
  else
    match natOfDigits cpu.data with
    | some n => [("cpu.max", toString (n * 100000) ++ " 100000")]
    | none => []

/-- Modelled from the spec: section 4.2 rows for the memory field
(missing from the source). "max" maps to memory.max = "max"; a number
followed by M maps to memory.max = "n*1048576"; a plain integer is
taken as bytes. -/
def specMemoryPairs (memory : String) : List (String × String) :=
  if memory.data.isEmpty then []
  else if memory = "max" then [("memory.max", "max")]
  else if memory.data.getLast? = some 'M' then
    match natOfDigits memory.data.dropLast with
    | some n => [("memory.max", toString (n * 1048576))]
    | none => []
  else
    match natOfDigits memory.data with
    | some n => [("memory.max", toString n)]
    | none => []

/-- Modelled from the spec: section 4.2 rows for the io class
(missing from the source). dev is the major:minor of the device
backing the root filesystem. -/
def specIoPairs (cls dev : String) : List (String × String) :=
  if cls = "low" then [("io.max", dev ++ " rbps=1048576 wbps=1048576")]
  else if cls = "med" then [("io.max", dev ++ " rbps=10485760 wbps=10485760")]
  else if cls = "high" then [("io.max", dev ++ " rbps=max wbps=max")]
  else []

/-- Modelled from the spec: the full limit translator of section 4.2,
emitting the ordered cpu, memory, io pairs. This is the intended
behavior the spec defines for the placeholder translateLimits. -/
def translateLimitsSpec (l : ResourceLimits) (dev : String) :
    List (String × String) :=
  specCpuPairs l.cpu ++ specMemoryPairs l.memoryMax ++ specIoPairs l.ioClass dev

/-- Manager.StartJob (manager.go lines 33-62): validate the
executable, generate an id, translate limits, construct the Job, and
start it. We also return the accumulated effect trace; the
jobConstruct effect marks the NewJob call, showing the validation
happens before any construction or filesystem step. -/
def managerStartJob (executable : String) (limits : Option ResourceLimits)
    (uuid : String) (env : Env) :
    Except GrpcErr (String × Job) × List Effect :=
  if executable = "" then
    (.error (.invalidArgument "executable required"), [])
  else
    let _limitPairs := translateLimits limits
    match NewJob uuid executable with
    | .error e => (.error (.internal e), [Effect.jobConstruct])
    | .ok job =>
      match Job.start env job with
      | (_, some _, effs) =>
        (.error (.internal "start job"), Effect.jobConstruct :: effs)
      | (job, none, effs) =>
        (.ok (uuid, job), Effect.jobConstruct :: effs)

/-! ## Operation sequences (for the once-only completion signal) -/

/-- One call against a Job: Start, Stop, or the waiter task running. -/
inductive JobOp where
  | opStart (env : Env)
  | opStop (env : Env)
  | opWaiter (env : Env)

/-- Apply one operation, keeping only the state. -/
def applyOp (j : Job) : JobOp → Job
  | .opStart env => (Job.start env j).1
  | .opStop env => (Job.stop env j).1
  | .opWaiter env => (Job.waitForExit env j).1

/-- Run a sequence of operations from a state. -/
def runOps (j : Job) (ops : List JobOp) : Job :=
  ops.foldl applyOp j

/-- The latch invariant: doneCh has been closed exactly once if the
waitOnce latch has been consumed, and never otherwise. -/
def onceInv (j : Job) : Prop :=
  j.doneCloseCount = (if j.waitOnceDone then 1 else 0)

/-! ## Interleaving model of Stop racing the waiter

The race of cgroups.go between Stop (lines 226-268) and the tail of
doWait after cmd.Wait has returned with a natural exit (lines
399-439). The waiter goroutine entered the waitOnce latch before
blocking in cmd.Wait, so a racing Stop can never run the doWait body
itself; its final waitOnce.Do only blocks until the waiter is done.
Each atomic memory access of the Go code is one step; thread-local
control state lives in the two program counters. -/

structure RaceState where
  status : Status
  exitCode : Int
  /-- The stopped atomic.Bool. -/
  stopped : Bool
  logsClosed : Bool
  cgDirExists : Bool
  doneClosed : Bool
  /-- The waiter finished the doWait body (releases the latch). -/
  onceDone : Bool
  /-- Waiter program counter (0..7). -/
  wpc : Nat
  /-- The value the waiter loaded from the stopped flag at line 414. -/
  obs : Bool
  /-- Stop program counter (0..5). -/
  spc : Nat
  /-- Whether the stopped CAS in Stop won (line 227). -/
  stopCASWon : Bool
deriving DecidableEq, Repr

/-- One step of the waiter thread after cmd.Wait returned with a
natural exit of code 0 (cgroups.go lines 402-438):
0 store the exit code (line 406);
1 load the stopped flag (line 414);
2 read the status and branch (lines 415 and 421);
3 write the reconciled status (line 417 or 422);
4 close the log sinks (line 426);
5 delete the cgroup (line 435);
6 close doneCh and release the latch (deferred close, line 381). -/
def waiterStep (s : RaceState) : RaceState :=
  match s.wpc with
  | 0 => { s with exitCode := 0, wpc := 1 }
  | 1 => { s with obs := s.stopped, wpc := 2 }
  | 2 =>
    if s.obs then
      if s.status ≠ .stopped then { s with wpc := 3 } else { s with wpc := 4 }
    else
      if s.status ≠ .failed then { s with wpc := 3 } else { s with wpc := 4 }
  | 3 => { s with status := if s.obs then .stopped else .exited, wpc := 4 }
  | 4 => { s with logsClosed := true, wpc := 5 }
  | 5 => { s with cgDirExists := false, wpc := 6 }
  | 6 => { s with doneClosed := true, onceDone := true, wpc := 7 }
  | _ => s

/-- One step of the Stop thread (cgroups.go lines 226-268):
0 CAS the stopped flag (line 227; a lost CAS returns nil at once);
1 kill the process group (line 237; the process state is not
  modelled here, the child has already exited);
2 delete the cgroup (line 251);
3 store status Stopped (line 259);
4 waitOnce.Do (line 261): blocked until the waiter releases the
  latch, then a no-op since the body already ran. -/
def stopStep (s : RaceState) : RaceState :=
  match s.spc with
  | 0 =>
    if s.stopped then { s with spc := 5, stopCASWon := false }
    else { s with stopped := true, stopCASWon := true, spc := 1 }
  | 1 => { s with spc := 2 }
  | 2 => { s with cgDirExists := false, spc := 3 }
  | 3 => { s with status := .stopped, spc := 4 }
  | 4 => if s.onceDone then { s with spc := 5 } else s
  | _ => s

/-- The state at the moment the race begins: the job is Running, the
child has just exited naturally, nothing is stopped yet. -/
def raceInit : RaceState :=
  { status := .running
    exitCode := exitCodeUnknown
    stopped := false
    logsClosed := false
    cgDirExists := true
    doneClosed := false
    onceDone := false
    wpc := 0
    obs := false
    spc := 0
    stopCASWon := false }

/-- Run a schedule: true steps the waiter, false steps Stop. -/
def runRace (sched : List Bool) : RaceState :=
  sched.foldl (fun s pick => if pick then waiterStep s else stopStep s) raceInit

/-- Both threads ran to completion. -/
def raceDone (s : RaceState) : Prop :=
  s.wpc = 7 ∧ s.spc = 5

instance (s : RaceState) : Decidable (raceDone s) := by
  unfold raceDone; infer_instance

/-- Invariant of the race, preserved by every step of either thread:
the stopped flag is set exactly when Stop has passed its CAS; the
loaded flag value implies the flag; the status is always Running,
Stopped, or Exited; it is still Running only while neither thread has
reached its status write; and once the waiter loaded the flag as set
and passed its status write, the status is (and remains) Stopped. -/
def raceInv (s : RaceState) : Prop :=
  (s.stopped = true ↔ 1 ≤ s.spc) ∧
  (s.obs = true → s.stopped = true) ∧
  (s.status = .running ∨ s.status = .stopped ∨ s.status = .exited) ∧
  (s.status = .running → s.wpc ≤ 3 ∧ s.spc ≤ 3) ∧
  (s.obs = true → 4 ≤ s.wpc → s.status = .stopped)

/-- The schedule in which the waiter loads the stopped flag (still
clear) right before Stop runs start to finish; the waiter then
finishes, overwriting the status set by Stop with Exited. Stop ends
blocked on the latch until the waiter closes doneCh, then returns. -/
def schedLate : List Bool :=
  [true, true, false, false, false, false, true, true, true, true, true, false]

/-- The schedule in which the waiter fully finishes before Stop
begins. -/
def schedWaiterFirst : List Bool :=
  [true, true, true, true, true, true, true, false, false, false, false, false]

/-! ## Concrete states and environments used in the theorems -/

/-- The state after a successful Start in the all-good environment:
Running, with the cgroup directory, sinks, process, and manager all
present. -/
def sRunning : Job := (Job.start envOk initialJob).1

/-- The state after the waiter reaps a natural exit of code 0 from
sRunning: Exited, exit code 0, teardown done, stopped flag clear. -/
def sExited : Job := (Job.waitForExit envOk sRunning).1

/-- The state after Stop on a freshly constructed job: the stopped
flag is set. -/
def sStopped : Job := (Job.stop envOk initialJob).1

/-- Environment in which everything succeeds except that the cgroup
delete inside Stop reports an error. -/
def envDelFail : Env := { envOk with deleteErrStop := true }

/-- Environment in which the cgroup creation fails. -/
def envCreateFail : Env := { envOk with createOk := false }

/-- Environment in which the child is killed by a signal: cmd.Wait
returns an exec.ExitError whose wait status is Signaled. -/
def envSignal : Env :=
  { envOk with
      waitResult :=
        .err (.exitError (some { sys := some { signaled := true }, exitCode := -1 })) }

/-- A wait outcome reports a signal-killed child: per the os/exec
contract a signal-killed child surfaces as an ExitError whose process
state carries a Signaled wait status. -/
def isSignalKilled (wr : WaitResult) : Bool :=
  match wr with
  | .err (.exitError (some ps)) =>
    match ps.sys with
    | some ws => ws.signaled
    | none => false
  | _ => false

/-- The process state available from a wait outcome, if any. -/
def procState (wr : WaitResult) : Option ProcessState :=
  match wr with
  | .ok ps => ps
  | .err (.exitError ps) => ps
  | .err .other => none

/-! # Theorems -/

/-! ## Helper lemmas -/

/-- The failStart cleanup closure closes doneCh exactly once and does
not itself touch the latch flag. -/
theorem failStartBody_incr (j : Job) :
    ((failStartBody j).1).doneCloseCount = j.doneCloseCount + 1 ∧
    ((failStartBody j).1).waitOnceDone = j.waitOnceDone := by
  unfold failStartBody closeLogFiles
  cases hm : j.cgManagerSet <;> simp [hm]

/-- The doWait body closes doneCh exactly once in both of its branches
and does not itself touch the latch flag. -/
theorem doWaitBody_incr (env : Env) (j : Job) :
    ((doWaitBody env j).1).doneCloseCount = j.doneCloseCount + 1 ∧
    ((doWaitBody env j).1).waitOnceDone = j.waitOnceDone := by
  unfold doWaitBody closeLogFiles
  by_cases hs : j.status ≠ Status.running <;> cases hm : j.cgManagerSet <;>
    cases hf : j.stopped <;> simp [hs, hm, hf] <;> split_ifs <;> simp

/-- Running any once-incrementing body under the latch preserves the
latch invariant. -/
theorem runOnce_onceInv (b : Job → Job × List Effect)
    (hb : ∀ j, ((b j).1).doneCloseCount = j.doneCloseCount + 1 ∧
      ((b j).1).waitOnceDone = j.waitOnceDone)
    (j : Job) (h : onceInv j) : onceInv ((runOnce b j).1) := by
  unfold runOnce onceInv at *
  cases hw : j.waitOnceDone
  · obtain ⟨h1, h2⟩ := hb { j with waitOnceDone := true }
    simp only [hw] at h
    simp only [hw, Bool.false_eq_true, if_false, h1, h2]
    simp_all
  · simp_all

/-- failStart preserves the latch invariant. -/
theorem onceInv_failStart (code : Int) (j : Job) (h : onceInv j) :
    onceInv ((Job.failStart code j).1) := by
  unfold Job.failStart
  exact runOnce_onceInv failStartBody failStartBody_incr _ (by simpa [onceInv] using h)

/-- Start preserves the latch invariant. -/
theorem onceInv_start (env : Env) (j : Job) (h : onceInv j) :
    onceInv ((Job.start env j).1) := by
  unfold Job.start
  by_cases hs : j.status ≠ Status.unknown
  · simpa [hs] using h
  · cases hc : env.createOk <;> cases hp : env.prepareOk <;> cases hsp : env.spawnOk <;>
      simp only [hs, hc, hp, hsp, if_false, if_true, Bool.not_false, Bool.not_true,
        Bool.false_eq_true, Bool.true_eq_false, ite_true, ite_false, not_false_eq_true,
        not_true_eq_false] <;>
      first
        | (apply onceInv_failStart; simpa [onceInv] using h)
        | (simpa [onceInv] using h)

/-- Stop preserves the latch invariant. -/
theorem onceInv_stop (env : Env) (j : Job) (h : onceInv j) :
    onceInv ((Job.stop env j).1) := by
  unfold Job.stop
  cases hst : j.stopped
  · cases hp : j.hasProcess <;> cases hg : env.pgidOk <;> cases hm : j.cgManagerSet <;>
      simp only [hst, hp, hg, hm, Bool.false_eq_true, Bool.true_eq_false, if_false,
        if_true, ite_true, ite_false] <;>
      (apply runOnce_onceInv _ (doWaitBody_incr env); simpa [onceInv] using h)
  · simpa [hst] using h

/-- The waiter task preserves the latch invariant. -/
theorem onceInv_waiter (env : Env) (j : Job) (h : onceInv j) :
    onceInv ((Job.waitForExit env j).1) := by
  unfold Job.waitForExit
  exact runOnce_onceInv _ (doWaitBody_incr env) _ h

/-- Every sequence of Start, Stop, and waiter calls on a fresh job
keeps the latch invariant. -/
theorem onceInv_runOps (ops : List JobOp) : onceInv (runOps initialJob ops) := by
  have h0 : onceInv initialJob := by unfold onceInv initialJob; simp
  unfold runOps
  generalize initialJob = s0 at *
  induction ops generalizing s0 with
  | nil => simpa using h0
  | cons op l ih =>
    simp only [List.foldl_cons]
    apply ih
    cases op with
    | opStart env => exact onceInv_start env s0 h0
    | opStop env => exact onceInv_stop env s0 h0
    | opWaiter env => exact onceInv_waiter env s0 h0

/-- One waiter step preserves the race invariant. -/
theorem raceInv_waiter (s : RaceState) (h : raceInv s) : raceInv (waiterStep s) := by
  unfold raceInv waiterStep at *
  split <;> (try split) <;> (try split) <;> simp_all <;> (try tauto)

/-- One Stop step preserves the race invariant. -/
theorem raceInv_stop (s : RaceState) (h : raceInv s) : raceInv (stopStep s) := by
  unfold raceInv stopStep at *
  split <;> (try split) <;> simp_all <;> (try tauto)

/-- The race invariant holds after every schedule. -/
theorem raceInv_runRace (sched : List Bool) : raceInv (runRace sched) := by
  have hinit : raceInv raceInit := by unfold raceInv raceInit; simp
  unfold runRace
  generalize raceInit = s0 at *
  induction sched generalizing s0 with
  | nil => simpa using hinit
  | cons b l ih =>
    simp only [List.foldl_cons]
    apply ih
    cases b
    · simpa using raceInv_stop s0 hinit
    · simpa using raceInv_waiter s0 hinit

/-! ## Claim C1 -/

/-- Claim C1 counterexample: a second Start on a running job returns
an error, yet the status is Running (not Failed), the exit code is
-10 (not a failure sentinel), and doneCh has not been signaled. The
claim, quantified over every error-returning Start call, is therefore
false on the code. -/
theorem c1_cex :
    (Job.start envOk sRunning).2.1 = some StartErr.invalidState ∧
    ((Job.start envOk sRunning).1).status = Status.running ∧
    ((Job.start envOk sRunning).1).status ≠ Status.failed ∧
    ((Job.start envOk sRunning).1).exitCode = -10 ∧
    ((Job.start envOk sRunning).1).exitCode ≠ -11 ∧
    ((Job.start envOk sRunning).1).exitCode ≠ -12 ∧
    ((Job.start envOk sRunning).1).doneClosed = false := by decide

/-- Claim C1 (amended): for every Start call that passes the Unknown
to Started guard (status Unknown, latch not yet consumed) and returns
an error, the status is Failed, the exit code is -11 or -12, doneCh
has been signaled, and no cgroup directory created during the attempt
remains. -/
theorem c1_amended (s : Job) (env : Env) (h1 : s.status = .unknown)
    (h2 : s.waitOnceDone = false) (h3 : (Job.start env s).2.1 ≠ none) :
    ((Job.start env s).1).status = Status.failed ∧
    (((Job.start env s).1).exitCode = -11 ∨ ((Job.start env s).1).exitCode = -12) ∧
    ((Job.start env s).1).doneClosed = true ∧
    ((Job.start env s).1).cgroupDirExists = false := by
  cases hc : env.createOk <;> cases hp : env.prepareOk <;> cases hsp : env.spawnOk <;>
    simp_all [Job.start, Job.failStart, failStartBody, runOnce, closeLogFiles,
      exitCodeFailedCgroup, exitCodeFailedToStart]

/-- Claim C1 witness: the amended theorem applied to a fresh job in
the environment where cgroup creation fails. -/
theorem c1_witness :
    ((Job.start envCreateFail initialJob).1).status = Status.failed ∧
    (((Job.start envCreateFail initialJob).1).exitCode = -11 ∨
      ((Job.start envCreateFail initialJob).1).exitCode = -12) ∧
    ((Job.start envCreateFail initialJob).1).doneClosed = true ∧
    ((Job.start envCreateFail initialJob).1).cgroupDirExists = false :=
  c1_amended initialJob envCreateFail rfl rfl (by decide)

/-! ## Claim C2 -/

/-- Claim C2: the translator in the source returns the empty list for
a request with cpu 500m, while the translation the spec defines for
that request emits cpu.max = "50000 100000"; the two disagree. The
source function is an acknowledged placeholder that discards its
input. -/
theorem c2_theorem :
    translateLimits (some { cpu := "500m", memoryMax := "", ioClass := "" }) = [] ∧
    translateLimitsSpec { cpu := "500m", memoryMax := "", ioClass := "" } "8:0" =
      [("cpu.max", "50000 100000")] ∧
    translateLimits (some { cpu := "500m", memoryMax := "", ioClass := "" }) ≠
      translateLimitsSpec { cpu := "500m", memoryMax := "", ioClass := "" } "8:0" := by
  refine ⟨rfl, by decide, by decide⟩

/-! ## Claim C3 -/

/-- Claim C3 counterexample: in the schedule where the waiter loads
the stopped flag (still clear) just before Stop runs, both threads
complete, Stop won its flag CAS, yet the final status is Exited and
not Stopped. The claim that every race of Stop with a natural exit
ends Stopped is therefore false on the code. -/
theorem c3_cex :
    raceDone (runRace schedLate) ∧
    (runRace schedLate).stopCASWon = true ∧
    (runRace schedLate).status = Status.exited ∧
    (runRace schedLate).status ≠ Status.stopped := by decide

/-- Claim C3 (amended): in every completed schedule of Stop racing
the natural exit, if the waiter observed the stopped flag set after
reaping then the final status is Stopped; and the final status is
always Stopped or Exited. -/
theorem c3_amended (sched : List Bool) (h : raceDone (runRace sched)) :
    ((runRace sched).obs = true → (runRace sched).status = Status.stopped) ∧
    ((runRace sched).status = Status.stopped ∨
      (runRace sched).status = Status.exited) := by
  obtain ⟨h1, h2, h3, h4, h5⟩ := raceInv_runRace sched
  obtain ⟨hw, hs⟩ := h
  constructor
  · intro hb; exact h5 hb (by omega)
  · rcases h3 with hr | hx | hx
    · exact absurd (h4 hr).2 (by omega)
    · exact Or.inl hx
    · exact Or.inr hx

/-- Claim C3 witness: the amended theorem applied to the schedule in
which the waiter finishes before Stop begins. -/
theorem c3_witness :
    ((runRace schedWaiterFirst).obs = true →
      (runRace schedWaiterFirst).status = Status.stopped) ∧
    ((runRace schedWaiterFirst).status = Status.stopped ∨
      (runRace schedWaiterFirst).status = Status.exited) :=
  c3_amended schedWaiterFirst (by decide)

/-! ## Claim C4 -/

/-- Claim C4: when the waiter reaps the child, a signal-killed child
records exit code -13; an outcome with no process state records -10;
otherwise the recorded exit code is the actual exit status of the
child. -/
theorem c4_theorem (env : Env) (j : Job) (h1 : j.status = .running)
    (h2 : j.waitOnceDone = false) :
    (isSignalKilled env.waitResult = true →
      ((Job.waitForExit env j).1).exitCode = -13) ∧
    (isSignalKilled env.waitResult = false → procState env.waitResult = none →
      ((Job.waitForExit env j).1).exitCode = -10) ∧
    (∀ ps, isSignalKilled env.waitResult = false →
      procState env.waitResult = some ps →
      ((Job.waitForExit env j).1).exitCode = ps.exitCode) := by
  have hec : ((Job.waitForExit env j).1).exitCode = exitCodeOfWait env.waitResult := by
    unfold Job.waitForExit runOnce doWaitBody closeLogFiles
    simp [h1, h2]
    split_ifs <;> simp
  rw [hec]
  refine ⟨?_, ?_, ?_⟩ <;>
  · rcases hw : env.waitResult with ps | e
    · rcases ps with _ | ps <;>
        simp_all [isSignalKilled, procState, exitCodeOfWait, exitCodeUnknown]
    · rcases e with ps | _
      · rcases ps with _ | ps
        · simp_all [isSignalKilled, procState, exitCodeOfWait, getExitCodeFromError,
            exitCodeUnknown]
        · rcases hs : ps.sys with _ | ws <;>
            simp_all [isSignalKilled, procState, exitCodeOfWait, getExitCodeFromError,
              exitCodeKilledBySignal, exitCodeUnknown]
      · simp_all [isSignalKilled, procState, exitCodeOfWait, getExitCodeFromError,
          exitCodeUnknown]

/-- Claim C4 witness: the theorem applied to a running job whose
child is killed by a signal gives exit code -13. -/
theorem c4_witness :
    isSignalKilled envSignal.waitResult = true ∧
    ((Job.waitForExit envSignal sRunning).1).exitCode = -13 :=
  ⟨by decide, (c4_theorem envSignal sRunning (by decide) (by decide)).1 (by decide)⟩

/-! ## Claim C5 -/

/-- Claim C5: after a first Start took the status out of Unknown, a
second Start fails with the invalid-state error, leaves the state
unchanged, and performs no effect at all (no cgroup creation, no
filesystem preparation, no spawn). -/
theorem c5_theorem (s0 : Job) (env0 env1 : Env) (h : s0.status = .unknown) :
    Job.start env1 ((Job.start env0 s0).1) =
      ((Job.start env0 s0).1, some StartErr.invalidState, []) := by
  have hne : ((Job.start env0 s0).1).status ≠ Status.unknown := by
    cases hc : env0.createOk <;> cases hp : env0.prepareOk <;> cases hsp : env0.spawnOk <;>
      simp_all [Job.start, Job.failStart, failStartBody, runOnce, closeLogFiles] <;>
      (try (split_ifs <;> simp))
  rw [Job.start]
  simp [hne]

/-- Claim C5 witness: the theorem applied to a fresh job started in
the all-good environment. -/
theorem c5_witness :
    Job.start envOk sRunning = (sRunning, some StartErr.invalidState, []) :=
  c5_theorem initialJob envOk envOk rfl

/-! ## Claim C6 -/

/-- Claim C6 counterexample: on a running job, with the kill of the
process group succeeding and the cgroup delete failing, Stop returns
the cleanup error (a non-nil join), not success. The claim that the
delete failure is only logged is therefore false on the code. -/
theorem c6_cex :
    (Job.stop envDelFail sRunning).2.1 = [StopErr.cleanupCgroup] ∧
    (Job.stop envDelFail sRunning).2.1 ≠ [] ∧
    Effect.killGroup ∈ (Job.stop envDelFail sRunning).2.2 := by decide

/-- Claim C6 (amended): whenever the kill succeeds (or is skipped
because no process exists) and the cgroup delete fails, Stop both
logs and propagates the failure: the returned error join contains the
cgroup-cleanup error and is not success. -/
theorem c6_amended (s : Job) (env : Env) (h1 : s.stopped = false)
    (h2 : s.cgManagerSet = true) (h3 : env.deleteErrStop = true)
    (h4 : s.hasProcess = true → env.pgidOk = true ∧ env.killPgErr = false) :
    StopErr.cleanupCgroup ∈ (Job.stop env s).2.1 ∧ (Job.stop env s).2.1 ≠ [] := by
  cases hp : s.hasProcess
  · simp_all [Job.stop]
  · obtain ⟨hg, hk⟩ := h4 hp
    simp_all [Job.stop]

/-- Claim C6 witness: the amended theorem applied to the running job
in the delete-failing environment. -/
theorem c6_witness :
    StopErr.cleanupCgroup ∈ (Job.stop envDelFail sRunning).2.1 ∧
    (Job.stop envDelFail sRunning).2.1 ≠ [] :=
  c6_amended sRunning envDelFail rfl rfl rfl (by decide)

/-! ## Claim C7 -/

/-- Claim C7 counterexample: on a job that exited naturally (terminal
status Exited, stopped flag clear), Stop is not a no-op: it rewrites
the status to Stopped. The claim, quantified over every terminal
status, is therefore false on the code. -/
theorem c7_cex :
    sExited.status = Status.exited ∧ sExited.stopped = false ∧
    ((Job.stop envOk sExited).1).status = Status.stopped ∧
    ((Job.stop envOk sExited).1).status ≠ sExited.status := by decide

/-- Claim C7 (amended): Stop on a job whose stopped flag is already
set, which covers every job whose terminal status was produced by
Stop, is a no-op returning success: no error, no effect, and the
whole state (status and exit code included) unchanged. -/
theorem c7_amended (s : Job) (env : Env) (h : s.stopped = true) :
    Job.stop env s = (s, [], []) := by
  rw [Job.stop]
  simp [h]

/-- Claim C7 witness: the amended theorem applied to a job already
stopped via Stop. -/
theorem c7_witness : Job.stop envOk sStopped = (sStopped, [], []) :=
  c7_amended sStopped envOk (by decide)

/-! ## Claim C8 -/

/-- Claim C8: over every sequence of Start, Stop, and waiter calls on
a fresh job, doneCh is closed at most once, and it has been closed
exactly when the waitOnce latch has been consumed, so every close
happens from inside the latch. -/
theorem c8_theorem (ops : List JobOp) :
    (runOps initialJob ops).doneCloseCount ≤ 1 ∧
    (runOps initialJob ops).doneCloseCount =
      (if (runOps initialJob ops).waitOnceDone then 1 else 0) := by
  have hinv := onceInv_runOps ops
  unfold onceInv at hinv
  refine ⟨?_, hinv⟩
  rw [hinv]
  split <;> omega

/-! ## Claim C9 -/

/-- Claim C9: job construction rejects an empty id or an empty
command (and performs no filesystem operation, being pure), and the
manager rejects an empty executable with the invalid-argument error
before constructing a job and before any effect. -/
theorem c9_theorem (id command exe : String) (limits : Option ResourceLimits)
    (uuid : String) (env : Env) (h : id = "" ∨ command = "") (hexe : exe = "") :
    (∃ msg, NewJob id command = .error msg) ∧
    managerStartJob exe limits uuid env =
      (.error (.invalidArgument "executable required"), []) := by
  constructor
  · by_cases hid : id = ""
    · exact ⟨"job id required", by simp [NewJob, hid]⟩
    · rcases h with h | h
      · exact absurd h hid
      · exact ⟨"Command required", by simp [NewJob, hid, h]⟩
  · simp [managerStartJob, hexe]

/-- Claim C9 witness: the theorem applied to an empty id and an empty
executable. -/
theorem c9_witness :
    (∃ msg, NewJob "" "/bin/echo" = .error msg) ∧
    managerStartJob "" none "u1" envOk =
      (.error (.invalidArgument "executable required"), []) :=
  c9_theorem "" "/bin/echo" "" none "u1" envOk (Or.inl rfl) rfl

/-! ## Claim C10 -/

/-- Claim C10: Stop on a freshly constructed job that was never
started returns success, performs no kill and no cgroup operation
(its only effect is closing doneCh), sets the status to Stopped, and
closes doneCh, so Wait returns immediately. -/
theorem c10_theorem (env : Env) :
    (Job.stop env initialJob).2.1 = [] ∧
    (Job.stop env initialJob).2.2 = [Effect.doneClose] ∧
    ((Job.stop env initialJob).1).status = Status.stopped ∧
    ((Job.stop env initialJob).1).doneClosed = true := by
  refine ⟨rfl, rfl, rfl, rfl⟩
